import Mathlib

/-!
Verification of the indeks-sdk event capture and batching/delivery core.

The definitions below are a shallow embedding of the TypeScript sources:
* `IndeksAnalytics` (batching & delivery pipeline) from
  `packages/core/src/lib/analytics.ts`,
* `IndeksTracker` (event capture engine, heuristic detectors, session
  lifecycle) from `packages/core/src/lib/tracker.ts` and the fuller tracker
  variant shipped in `packages/core/src/lib/storage.ts`,
* shared constants from `packages/shared/src/constants/index.ts`.

Machine time is modelled as `Nat` epoch milliseconds; JavaScript numbers are
modelled exactly where the code needs them (a `JSNum` type with `NaN` and
infinities for the scroll-percentage computation).  Asynchronous methods are
modelled as pure state-transition functions, with the outcome of the single
`fetch` call passed in as a boolean parameter, and buffer growth during an
`await` passed in explicitly.
-/

/-- The common event envelope (`BaseEvent` in `@indeks/shared` types):
`type` discriminant, capture `timestamp`, context fields and the optional
`referrer`.  Variant payloads irrelevant to the delivery pipeline are not
carried here. -/
structure IndeksEvent where
  type : String
  timestamp : Nat
  url : String
  userAgent : String
  sessionId : String
  userId : String
  referrer : Option String
deriving DecidableEq

/-- `BATCH_CONFIG.DEFAULT_BATCH_SIZE` from `packages/shared/src/constants`. -/
def DEFAULT_BATCH_SIZE : Nat := 50

/-- `BATCH_CONFIG.AUTO_FLUSH_INTERVAL` (ms) from `packages/shared/src/constants`. -/
def AUTO_FLUSH_INTERVAL : Nat := 5000

/-- The mutable state of `IndeksAnalytics`: the internal delivery buffer
`batchQueue`.  The `flushTimer` handle only schedules future `flush()` calls
and never touches the buffer, so the timed behaviour is modelled by when the
transition functions are invoked, not as a state component. -/
structure AnalyticsState where
  batchQueue : List IndeksEvent
deriving DecidableEq

/-- Result of `IndeksAnalytics.flush()`: the state after the call, the list
of batches handed to `send()` (in call order), and whether the returned
promise resolved (`ok = true`) or rejected. -/
structure FlushResult where
  state : AnalyticsState
  sends : List (List IndeksEvent)
  ok : Bool
deriving DecidableEq

/-- `IndeksAnalytics.flush()` (`analytics.ts` lines 98-116).  If the buffer
is empty it returns at once.  Otherwise it copies the buffer into
`eventsToSend`, empties the live buffer, clears the timer and awaits
`send(eventsToSend)`.  `sendFails` is the outcome of that send; `arrivals`
are the events pushed by `batch()` calls that run while the send is in
flight (the buffer is live again during the `await`).  On failure the failed
batch is `unshift`ed back in front of the since-grown live buffer and the
error is re-thrown. -/
def flushOp (st : AnalyticsState) (sendFails : Bool)
    (arrivals : List IndeksEvent) : FlushResult :=
  if st.batchQueue.isEmpty then
    { state := st, sends := [], ok := true }
  else
    let eventsToSend := st.batchQueue
    if sendFails then
      { state := { batchQueue := eventsToSend ++ arrivals },
        sends := [eventsToSend], ok := false }
    else
      { state := { batchQueue := arrivals },
        sends := [eventsToSend], ok := true }

/-- `IndeksAnalytics.getBatchSize()`. -/
def getBatchSize (st : AnalyticsState) : Nat :=
  st.batchQueue.length

/-- Result of `IndeksAnalytics.batch()`: new state, batches handed to
`send()` during the call, and whether the returned promise rejected. -/
structure BatchResult where
  state : AnalyticsState
  sends : List (List IndeksEvent)
  failed : Bool
deriving DecidableEq

/-- `IndeksAnalytics.batch(events)` (`analytics.ts` lines 80-96): pushes the
events onto the buffer; if the buffer length reaches
`DEFAULT_BATCH_SIZE` it awaits `flush()` immediately (the timer reset that
follows only schedules a later `flush()` and does not change the buffer).
The call is synchronous up to that flush, so no concurrent arrivals exist. -/
def batchOp (st : AnalyticsState) (events : List IndeksEvent)
    (sendFails : Bool) : BatchResult :=
  let q := st.batchQueue ++ events
  if DEFAULT_BATCH_SIZE ≤ q.length then
    let fr := flushOp { batchQueue := q } sendFails []
    { state := fr.state, sends := fr.sends, failed := !fr.ok }
  else
    { state := { batchQueue := q }, sends := [], failed := false }

/-- Outcome of `IndeksAnalytics.send(events)`: whether a network request
(`fetch`) was performed and whether the promise resolved. -/
structure SendResult where
  networkCalled : Bool
  ok : Bool
deriving DecidableEq

/-- `IndeksAnalytics.send(events)` (`analytics.ts` lines 17-78).  The body
begins with `if (!events.length) return;`, so an empty argument resolves
with no fetch.  Otherwise one POST happens and a non-2xx response or
transport failure re-throws.  The body never reads or writes `batchQueue`,
so the pipeline state passes through unchanged. -/
def sendOp (st : AnalyticsState) (events : List IndeksEvent)
    (fetchOk : Bool) : AnalyticsState × SendResult :=
  if events.isEmpty then
    (st, { networkCalled := false, ok := true })
  else
    (st, { networkCalled := true, ok := fetchOk })

/-- Claim C2: if `send()` rejects during `flush()`, the whole failed batch
is prepended back onto the front of the live buffer in its original order,
ahead of any events batched since, `flush()` re-throws, and a subsequent
`getBatchSize()` counts the failed events — no buffered event is lost. -/
theorem flush_requeues_failed_batch (B A : List IndeksEvent) (hB : B ≠ []) :
    (flushOp { batchQueue := B } true A).state.batchQueue = B ++ A ∧
    (flushOp { batchQueue := B } true A).ok = false ∧
    (flushOp { batchQueue := B } true A).sends = [B] ∧
    getBatchSize (flushOp { batchQueue := B } true A).state
      = B.length + A.length ∧
    ∀ e : IndeksEvent, e ∈ B →
      e ∈ (flushOp { batchQueue := B } true A).state.batchQueue := by
  cases B with
  | nil => exact absurd rfl hB
  | cons b bs =>
    refine ⟨?_, ?_, ?_, ?_, ?_⟩ <;>
      simp [flushOp, getBatchSize]
    · omega
    · intro a ha
      exact Or.inr (Or.inl ha)

/-- Witness for C2 at a concrete failed flush of two buffered events with
one event arriving during the send. -/
theorem flush_requeues_failed_batch_witness :
    (flushOp { batchQueue :=
        [{ type := "click", timestamp := 1, url := "/a", userAgent := "ua",
           sessionId := "s", userId := "u", referrer := none },
         { type := "scroll", timestamp := 2, url := "/a", userAgent := "ua",
           sessionId := "s", userId := "u", referrer := none }] } true
      [{ type := "pageview", timestamp := 3, url := "/b", userAgent := "ua",
         sessionId := "s", userId := "u", referrer := none }]).state.batchQueue
      = [{ type := "click", timestamp := 1, url := "/a", userAgent := "ua",
           sessionId := "s", userId := "u", referrer := none },
         { type := "scroll", timestamp := 2, url := "/a", userAgent := "ua",
           sessionId := "s", userId := "u", referrer := none },
         { type := "pageview", timestamp := 3, url := "/b", userAgent := "ua",
           sessionId := "s", userId := "u", referrer := none }] ∧
    getBatchSize (flushOp { batchQueue :=
        [{ type := "click", timestamp := 1, url := "/a", userAgent := "ua",
           sessionId := "s", userId := "u", referrer := none },
         { type := "scroll", timestamp := 2, url := "/a", userAgent := "ua",
           sessionId := "s", userId := "u", referrer := none }] } true
      [{ type := "pageview", timestamp := 3, url := "/b", userAgent := "ua",
         sessionId := "s", userId := "u", referrer := none }]).state = 3 := by
  have h := flush_requeues_failed_batch
    [{ type := "click", timestamp := 1, url := "/a", userAgent := "ua",
       sessionId := "s", userId := "u", referrer := none },
     { type := "scroll", timestamp := 2, url := "/a", userAgent := "ua",
       sessionId := "s", userId := "u", referrer := none }]
    [{ type := "pageview", timestamp := 3, url := "/b", userAgent := "ua",
       sessionId := "s", userId := "u", referrer := none }]
    (by decide)
  exact ⟨h.1, h.2.2.2.1⟩

/-- Claim C3: whenever `batch(events)` brings the buffer length to at least
`DEFAULT_BATCH_SIZE` (50), an immediate flush is triggered: `send()` is
invoked exactly once with the whole buffer contents, without waiting for any
timer, leaving the buffer empty on success. -/
theorem batch_flushes_at_threshold (st : AnalyticsState)
    (events : List IndeksEvent)
    (h : DEFAULT_BATCH_SIZE ≤ (st.batchQueue ++ events).length) :
    DEFAULT_BATCH_SIZE = 50 ∧
    (batchOp st events false).sends = [st.batchQueue ++ events] ∧
    (batchOp st events false).state.batchQueue = [] ∧
    (batchOp st events false).failed = false := by
  have hne : (st.batchQueue ++ events).isEmpty = false := by
    cases hq : st.batchQueue ++ events with
    | nil => rw [hq] at h; simp [DEFAULT_BATCH_SIZE] at h
    | cons x xs => rfl
  have h2 : DEFAULT_BATCH_SIZE ≤ st.batchQueue.length + events.length := by
    simpa using h
  refine ⟨rfl, ?_, ?_, ?_⟩ <;>
    simp [batchOp, flushOp, h2, hne]

/-- Witness for C3: queuing 50 click events into an empty pipeline sends
exactly that batch once and empties the buffer. -/
theorem batch_flushes_at_threshold_witness :
    (batchOp { batchQueue := [] }
      (List.replicate 50
        { type := "click", timestamp := 0, url := "/", userAgent := "ua",
          sessionId := "s", userId := "u", referrer := none }) false).sends
      = [List.replicate 50
          { type := "click", timestamp := 0, url := "/", userAgent := "ua",
            sessionId := "s", userId := "u", referrer := none }] ∧
    (batchOp { batchQueue := [] }
      (List.replicate 50
        { type := "click", timestamp := 0, url := "/", userAgent := "ua",
          sessionId := "s", userId := "u", referrer := none })
      false).state.batchQueue = [] := by
  have h := batch_flushes_at_threshold { batchQueue := [] }
    (List.replicate 50
      { type := "click", timestamp := 0, url := "/", userAgent := "ua",
        sessionId := "s", userId := "u", referrer := none })
    (by simp [DEFAULT_BATCH_SIZE])
  refine ⟨?_, h.2.2.1⟩
  have h2 := h.2.1
  simpa using h2

/-- Claim C10: calling `send(events)` with an empty events array resolves
successfully without performing any network request and without modifying
any pipeline state. -/
theorem send_empty_is_noop (st : AnalyticsState) (fetchOk : Bool) :
    sendOp st [] fetchOk = (st, { networkCalled := false, ok := true }) :=
  rfl

/-- JavaScript number values reachable by the scroll-percentage expression:
a finite value (modelled as an exact rational; every operand the handler
feeds in is an integer pixel count, and the one division is either exact or
far enough from a rounding boundary that the IEEE double result rounds the
same way), or one of the special values `Infinity`, `-Infinity`, `NaN`. -/
inductive JSNum where
  | num : ℚ → JSNum
  | posInf : JSNum
  | negInf : JSNum
  | nan : JSNum
deriving DecidableEq

/-- JavaScript division `a / b` of two finite numbers: `0 / 0` is `NaN`,
`a / 0` with `a ≠ 0` a signed infinity, otherwise the quotient.  (The
denominator below is an integer difference, so a negatively signed zero
cannot arise.) -/
def jsDiv (a b : ℚ) : JSNum :=
  if b = 0 then
    if a = 0 then .nan else if 0 < a then .posInf else .negInf
  else .num (a / b)

/-- Multiplication of a JavaScript number by a positive finite constant
(used with the literal `100`). -/
def jsMulPos (x : JSNum) (c : ℚ) : JSNum :=
  match x with
  | .num a => .num (a * c)
  | .posInf => .posInf
  | .negInf => .negInf
  | .nan => .nan

/-- `Math.round`: nearest integer with ties rounding up, i.e. `⌊x + 1/2⌋`
on finite values; infinities and `NaN` are returned unchanged. -/
def jsRound : JSNum → JSNum
  | .num a => .num (⌊a + 1 / 2⌋ : ℤ)
  | .posInf => .posInf
  | .negInf => .negInf
  | .nan => .nan

/-- The `isNaN` predicate. -/
def JSNum.isNaN : JSNum → Bool
  | .nan => true
  | _ => false

/-- The raw scroll percentage from `setupScrollTracking` (`tracker.ts`
lines 158-193):
`Math.round((scrollTop / (documentHeight - viewportHeight)) * 100)`. -/
def scrollPercentageRaw (scrollTop documentHeight viewportHeight : ℤ) : JSNum :=
  jsRound (jsMulPos
    (jsDiv (scrollTop : ℚ) ((documentHeight : ℚ) - (viewportHeight : ℚ)))
    100)

/-- The value stored on the emitted scroll event:
`isNaN(scrollPercentage) ? 0 : scrollPercentage`. -/
def reportedScrollPercentage (scrollTop documentHeight viewportHeight : ℤ) :
    JSNum :=
  if (scrollPercentageRaw scrollTop documentHeight viewportHeight).isNaN then
    .num 0
  else scrollPercentageRaw scrollTop documentHeight viewportHeight

/-- Counterexample to claim C5 as stated: the guard handles only the `NaN`
case.  With `documentHeight = viewportHeight = 500` and `scrollTop = 100`
the denominator is `0 ≤ 0` yet the reported percentage is `Infinity`, not
`0`; with `documentHeight = 400 < viewportHeight = 600` and
`scrollTop = 100` the denominator is negative yet the reported percentage
is `-50`, not `0`. -/
theorem scroll_clamp_counterexample :
    ((500 : ℤ) - 500 ≤ 0 ∧
      reportedScrollPercentage 100 500 500 ≠ JSNum.num 0 ∧
      reportedScrollPercentage 100 500 500 = JSNum.posInf) ∧
    ((400 : ℤ) - 600 ≤ 0 ∧
      reportedScrollPercentage 100 400 600 = JSNum.num (-50)) := by
  constructor
  · refine ⟨by decide, ?_, ?_⟩ <;>
      simp [reportedScrollPercentage, scrollPercentageRaw, jsDiv, jsMulPos,
        jsRound, JSNum.isNaN]
  · refine ⟨by decide, ?_⟩
    norm_num [reportedScrollPercentage, scrollPercentageRaw, jsDiv, jsMulPos,
      jsRound, JSNum.isNaN]

/-- Claim C5 (amended): the scroll handler's guard converts exactly the
`NaN` outcome to `0`: the reported `scrollPercentage` is never `NaN`, and
in the no-scroll configuration `documentHeight = viewportHeight` with
`scrollTop = 0` (where the raw expression is `0 / 0 = NaN`) the reported
value is `0`.  Inputs with a nonpositive denominator but nonzero
`scrollTop` are reported unclamped. -/
theorem scroll_percentage_nan_guard
    (scrollTop documentHeight viewportHeight : ℤ) :
    (reportedScrollPercentage scrollTop documentHeight viewportHeight).isNaN
      = false ∧
    (documentHeight = viewportHeight → scrollTop = 0 →
      reportedScrollPercentage scrollTop documentHeight viewportHeight
        = JSNum.num 0) := by
  constructor
  · unfold reportedScrollPercentage
    by_cases h :
      (scrollPercentageRaw scrollTop documentHeight viewportHeight).isNaN
        = true
    · rw [if_pos h]; rfl
    · rw [if_neg h]
      simpa using h
  · intro hdv hst
    subst hdv hst
    simp [reportedScrollPercentage, scrollPercentageRaw, jsDiv, jsMulPos,
      jsRound, JSNum.isNaN]

/-- Witness for C5 (amended) at `scrollTop = 0`,
`documentHeight = viewportHeight = 800`. -/
theorem scroll_percentage_nan_guard_witness :
    (reportedScrollPercentage 0 800 800).isNaN = false ∧
    reportedScrollPercentage 0 800 800 = JSNum.num 0 := by
  have h := scroll_percentage_nan_guard 0 800 800
  exact ⟨h.1, h.2 rfl rfl⟩

/-- `String.prototype.toLowerCase` restricted to the ASCII range, which is
all the sensitive-field filter compares against. -/
def toLowerString (s : String) : String :=
  (s.toList.map Char.toLower).asString

/-- Substring search on character lists (the body of
`String.prototype.includes`). -/
def charsIncludes (pat : List Char) : List Char → Bool
  | [] => pat.isEmpty
  | c :: rest => pat.isPrefixOf (c :: rest) || charsIncludes pat rest

/-- `String.prototype.includes`. -/
def strIncludes (s pat : String) : Bool :=
  charsIncludes pat.toList s.toList

/-- The sensitive-name test of `setupFormTracking` (`tracker.ts` lines
226-259): a field is captured only when its lower-cased name contains none
of the three sensitive substrings. -/
def isSensitiveFieldName (key : String) : Bool :=
  strIncludes (toLowerString key) "password" ||
  strIncludes (toLowerString key) "secret" ||
  strIncludes (toLowerString key) "token"

/-- Assignment `obj[key] = value` on a JavaScript object modelled as an
insertion-ordered association list: an existing key keeps its position and
is overwritten, a new key is appended. -/
def recordSet (m : List (String × String)) (k v : String) :
    List (String × String) :=
  if m.any (fun kv => kv.1 = k) then
    m.map (fun kv => if kv.1 = k then (k, v) else kv)
  else m ++ [(k, v)]

/-- One iteration of the `FormData.forEach` loop in `setupFormTracking`:
sensitive names are skipped, everything else is copied into the `formData`
object. -/
def formStep (m : List (String × String)) (kv : String × String) :
    List (String × String) :=
  if isSensitiveFieldName kv.1 then m else recordSet m kv.1 kv.2

/-- The `formData` object captured by the submit handler, built by folding
the form's entries (in `FormData` iteration order) through `formStep`. -/
def captureFormData (entries : List (String × String)) :
    List (String × String) :=
  entries.foldl formStep []

/-- Pointwise agreement of two form-entry lists used to state the
noninterference half of claim C6: the same field names in the same order,
with equal values on every non-sensitive field (sensitive values are free
to differ). -/
def FormAgree (a b : String × String) : Prop :=
  a.1 = b.1 ∧ (isSensitiveFieldName a.1 = false → a.2 = b.2)

theorem formFold_eq_filter (entries : List (String × String)) :
    ∀ acc : List (String × String),
      (∀ k, k ∈ acc.map Prod.fst → k ∉ entries.map Prod.fst) →
      (entries.map Prod.fst).Nodup →
      entries.foldl formStep acc
        = acc ++ entries.filter (fun kv => !isSensitiveFieldName kv.1) := by
  induction entries with
  | nil => intro acc _ _; simp
  | cons kv rest ih =>
    intro acc hdisj hnodup
    rw [List.map_cons] at hnodup
    have hnodup2 : (rest.map Prod.fst).Nodup := (List.nodup_cons.mp hnodup).2
    have hhead : kv.1 ∉ rest.map Prod.fst := (List.nodup_cons.mp hnodup).1
    by_cases hs : isSensitiveFieldName kv.1
    · have hstep : formStep acc kv = acc := by simp [formStep, hs]
      rw [List.foldl_cons, hstep,
        ih acc (fun k hk => fun hr => hdisj k hk (by simp [hr])) hnodup2]
      simp [List.filter_cons, hs]
    · have hknotacc : kv.1 ∉ acc.map Prod.fst := fun hk =>
        hdisj kv.1 hk (by simp)
      have hany : acc.any (fun p => p.1 = kv.1) = false := by
        rw [List.any_eq_false]
        intro p hp hpk
        exact hknotacc (by
          simp only [List.mem_map]
          exact ⟨p, hp, by simpa using hpk⟩)
      have hstep : formStep acc kv = acc ++ [kv] := by
        simp [formStep, hs, recordSet, hany]
      rw [List.foldl_cons, hstep,
        ih (acc ++ [kv]) ?_ hnodup2]
      · simp [List.filter_cons, hs]
      · intro k hk
        rcases by simpa using hk with hk1 | hk2
        · exact fun hr => hdisj k (by simpa using hk1) (by simp [hr])
        · subst hk2; exact hhead

theorem formFold_congr {es1 es2 : List (String × String)}
    (h : List.Forall₂ FormAgree es1 es2) :
    ∀ acc, es1.foldl formStep acc = es2.foldl formStep acc := by
  induction h with
  | nil => intro acc; rfl
  | @cons a b l1 l2 hab htail ih =>
    intro acc
    rcases hab with ⟨hk, hv⟩
    have hstep : formStep acc a = formStep acc b := by
      by_cases hs : isSensitiveFieldName a.1
      · simp [formStep, hs, hk ▸ hs]
      · have hs2 : isSensitiveFieldName b.1 = false := by
          rw [← hk]; simpa using hs
        simp [formStep, hs, hs2, hk, hv (by simpa using hs)]
    rw [List.foldl_cons, List.foldl_cons, hstep]
    exact ih _

/-- Claim C6: the captured `formData` of a `form_submit` event contains
exactly the field name/value pairs whose names do not case-insensitively
contain password, secret or token (stated for forms whose field names are
distinct, as the JavaScript object keeps one entry per name), and the
captured object is identical across two submissions that differ only in
the values of excluded fields. -/
theorem form_submit_excludes_sensitive_fields
    (entries es1 es2 : List (String × String)) (k v : String) :
    ((entries.map Prod.fst).Nodup →
      ((k, v) ∈ captureFormData entries ↔
        (k, v) ∈ entries ∧ isSensitiveFieldName k = false)) ∧
    (List.Forall₂ FormAgree es1 es2 →
      captureFormData es1 = captureFormData es2) := by
  constructor
  · intro hnodup
    rw [captureFormData, formFold_eq_filter entries [] (by simp) hnodup]
    simp [List.mem_filter]
  · intro h
    exact formFold_congr h []

/-- Witness for C6: a submit with fields username, password, csrf_token
captures only the username pair, and changing the password and token
values leaves the captured object unchanged. -/
theorem form_submit_excludes_sensitive_fields_witness :
    (("username", "alice") ∈
        captureFormData
          [("username", "alice"), ("password", "pw1"), ("csrf_token", "t1")] ↔
      (("username", "alice") ∈
          [("username", "alice"), ("password", "pw1"), ("csrf_token", "t1")] ∧
        isSensitiveFieldName "username" = false)) ∧
    captureFormData
        [("username", "alice"), ("password", "pw1"), ("csrf_token", "t1")]
      = captureFormData
        [("username", "alice"), ("password", "pw2"), ("csrf_token", "t2")] ∧
    captureFormData
        [("username", "alice"), ("password", "pw1"), ("csrf_token", "t1")]
      = [("username", "alice")] := by
  have h := form_submit_excludes_sensitive_fields
    [("username", "alice"), ("password", "pw1"), ("csrf_token", "t1")]
    [("username", "alice"), ("password", "pw1"), ("csrf_token", "t1")]
    [("username", "alice"), ("password", "pw2"), ("csrf_token", "t2")]
    "username" "alice"
  refine ⟨h.1 (by decide), h.2 ?_, by decide⟩
  exact List.Forall₂.cons ⟨rfl, fun _ => rfl⟩
    (List.Forall₂.cons ⟨rfl, fun hc => absurd hc (by decide)⟩
      (List.Forall₂.cons ⟨rfl, fun hc => absurd hc (by decide)⟩
        List.Forall₂.nil))

/-- JavaScript `a || b` on nullable strings (`none` models
`null`/`undefined`): `null`, `undefined` and the empty string are falsy. -/
def jsOrStr (a b : Option String) : Option String :=
  match a with
  | some s => if s = "" then b else some s
  | none => b

/-- JavaScript `a || d` where the fallback `d` is a nonempty literal, as in
`this.userId || "initializing"`. -/
def jsOrDefault (a : Option String) (d : String) : String :=
  match a with
  | some s => if s = "" then d else s
  | none => d

/-- The browser context the storage.ts tracker variant reads while
constructing an event: the query-parameter lookup
(`new URLSearchParams(window.location.search).get`), the internally
tracked previous page URL for SPA navigations, `document.referrer` (an
empty string when absent), `window.location.href`, the user agent and the
current time. -/
structure PageEnv where
  query : String → Option String
  previousUrl : Option String
  docReferrer : String
  href : String
  userAgent : String
  now : Nat

/-- The referrer priority chain of `createBaseEvent` (storage.ts lines
286-305): `utmSource || customRef || this.previousUrl ||
document.referrer || undefined`, where
`customRef = get("ref") || get("referrer") || get("source")`. -/
def baseEventReferrer (env : PageEnv) : Option String :=
  jsOrStr (env.query "utm_source")
    (jsOrStr
      (jsOrStr (env.query "ref")
        (jsOrStr (env.query "referrer") (env.query "source")))
      (jsOrStr env.previousUrl (jsOrStr (some env.docReferrer) none)))

/-- `createBaseEvent` from the storage.ts tracker variant: stamps the
envelope from the live browser context and tracker identity, with the
referrer resolved through `baseEventReferrer` and the `"initializing"`
sentinel substituted while the user id is unresolved. -/
def createBaseEvent (env : PageEnv) (sessionId : String)
    (userId : Option String) : IndeksEvent :=
  { type := ""
    timestamp := env.now
    url := env.href
    userAgent := env.userAgent
    sessionId := sessionId
    userId := jsOrDefault userId "initializing"
    referrer := baseEventReferrer env }

/-- The `pageview` event built by `trackPageView` (storage.ts lines
398-411): it spreads `createBaseEvent()` and then OVERRIDES the `referrer`
field with `this.previousUrl || document.referrer`, discarding the UTM and
custom-parameter steps of the chain. -/
def trackPageViewEvent (env : PageEnv) (sessionId : String)
    (userId : Option String) : IndeksEvent :=
  { createBaseEvent env sessionId userId with
    type := "pageview"
    referrer := jsOrStr env.previousUrl (some env.docReferrer) }

/-- A concrete page context carrying a `utm_source` query parameter and a
nonempty `document.referrer`, with no tracked previous page. -/
def utmPageEnv : PageEnv :=
  { query := fun k => if k = "utm_source" then some "newsletter" else none
    previousUrl := none
    docReferrer := "https://google.com/"
    href := "https://app.example.com/?utm_source=newsletter"
    userAgent := "ua"
    now := 1000 }

/-- Counterexample to claim C7 as stated: the `pageview` event is a
non-session event, yet on a page whose URL carries `utm_source=newsletter`
with a nonempty `document.referrer` its `referrer` field is the document
referrer, not the UTM value, because `trackPageView` overrides the
base-event chain with `previousUrl || document.referrer`. -/
theorem referrer_priority_counterexample :
    utmPageEnv.query "utm_source" = some "newsletter" ∧
    utmPageEnv.docReferrer ≠ "" ∧
    (trackPageViewEvent utmPageEnv "s1" (some "u1")).type = "pageview" ∧
    (trackPageViewEvent utmPageEnv "s1" (some "u1")).referrer
      = some "https://google.com/" ∧
    (trackPageViewEvent utmPageEnv "s1" (some "u1")).referrer
      ≠ some "newsletter" := by
  refine ⟨rfl, by decide, rfl, rfl, by decide⟩

/-- Claim C7 (amended): every event that keeps the base-event referrer —
all non-session events except `pageview` — carries the `utm_source` value
as its `referrer` whenever the page URL has a nonempty `utm_source` query
parameter, whatever `document.referrer` is; the `pageview` event instead
carries `previousUrl || document.referrer`. -/
theorem base_event_referrer_utm_priority (env : PageEnv) (sessionId : String)
    (userId : Option String) (u : String)
    (hu : env.query "utm_source" = some u) (hne : u ≠ "") :
    (createBaseEvent env sessionId userId).referrer = some u ∧
    (trackPageViewEvent env sessionId userId).referrer
      = jsOrStr env.previousUrl (some env.docReferrer) := by
  refine ⟨?_, rfl⟩
  simp [createBaseEvent, baseEventReferrer, hu, jsOrStr, hne]

/-- Witness for C7 (amended) on the concrete UTM-carrying page context. -/
theorem base_event_referrer_utm_priority_witness :
    (createBaseEvent utmPageEnv "s1" (some "u1")).referrer
      = some "newsletter" ∧
    (trackPageViewEvent utmPageEnv "s1" (some "u1")).referrer
      = jsOrStr utmPageEnv.previousUrl (some utmPageEnv.docReferrer) := by
  exact base_event_referrer_utm_priority utmPageEnv "s1" (some "u1")
    "newsletter" rfl (by decide)

/-- An entry of the tracker's `clickCounts` map:
`{ count: number; timestamp: number }`.  The timestamp is set when the
entry is created or restarted and is NOT advanced on increments, so the
2-second window is measured from the first click of the burst. -/
structure ClickEntry where
  count : Nat
  timestamp : Nat
deriving DecidableEq

/-- The JavaScript `Map` from derived CSS selector to `ClickEntry`,
modelled as an insertion-ordered association list. -/
abbrev ClickCounts := List (String × ClickEntry)

/-- `Map.prototype.get`. -/
def mapGet : ClickCounts → String → Option ClickEntry
  | [], _ => none
  | (k2, e) :: rest, k => if k2 = k then some e else mapGet rest k

/-- `Map.prototype.set` (also covers the in-place mutation
`existing.count = …` of the entry object): an existing key keeps its
position and is overwritten, a new key is appended. -/
def mapSet (m : ClickCounts) (k : String) (e : ClickEntry) : ClickCounts :=
  if m.any (fun kv => kv.1 = k) then
    m.map (fun kv => if kv.1 = k then (k, e) else kv)
  else m ++ [(k, e)]

/-- The clean-up loop at the end of the rage click listener: every entry
with `now - value.timestamp > 5000` is deleted, i.e. exactly the entries
with `now - timestamp ≤ 5000` survive. -/
def evictStale (m : ClickCounts) (now : Nat) : ClickCounts :=
  m.filter (fun kv => decide (now - kv.2.timestamp ≤ 5000))

/-- Result of one firing of the rage click listener: the updated
`clickCounts` map and, when a `rage_click` was emitted, its
`clicksInTimeframe` payload. -/
structure RageStep where
  clickCounts : ClickCounts
  rageEmitted : Option Nat
deriving DecidableEq

/-- One firing of the rage click listener registered by
`setupRageTracking` (`tracker.ts` lines 1218-1245 of the part_007 variant,
identical in storage.ts): if an entry for the clicked selector exists and
the click is within 2000ms of the entry's timestamp, increment its count;
at count ≥ 3 emit `rage_click` (via `trackRageClick`, lines 1289-1306) and
reset the count to 0.  Otherwise (re)start the entry at
`{count: 1, timestamp: now}`.  Finally evict entries staler than 5000ms. -/
def rageClickStep (m : ClickCounts) (selector : String) (now : Nat) :
    RageStep :=
  match mapGet m selector with
  | some existing =>
    if now - existing.timestamp < 2000 then
      if 3 ≤ existing.count + 1 then
        { clickCounts := evictStale
            (mapSet m selector
              { count := 0, timestamp := existing.timestamp }) now
          rageEmitted := some (existing.count + 1) }
      else
        { clickCounts := evictStale
            (mapSet m selector
              { count := existing.count + 1,
                timestamp := existing.timestamp }) now
          rageEmitted := none }
    else
      { clickCounts := evictStale
          (mapSet m selector { count := 1, timestamp := now }) now
        rageEmitted := none }
  | none =>
    { clickCounts := evictStale
        (mapSet m selector { count := 1, timestamp := now }) now
      rageEmitted := none }

/-- A sequence of clicks (each a time/selector pair, in arrival order) fed
through the rage click listener, collecting the `clicksInTimeframe`
payloads of the emitted `rage_click` events. -/
def rageClickRun (m : ClickCounts) : List (Nat × String) → ClickCounts × List Nat
  | [] => (m, [])
  | (t, s) :: rest =>
    let r := rageClickStep m s t
    let rr := rageClickRun r.clickCounts rest
    (rr.1, r.rageEmitted.toList ++ rr.2)

theorem mem_evictStale {m : ClickCounts} {now : Nat}
    {kv : String × ClickEntry} (h : kv ∈ evictStale m now) :
    now - kv.2.timestamp ≤ 5000 := by
  have := List.of_mem_filter h
  simpa using this

theorem rageClickStep_evicts (m : ClickCounts) (sel : String) (now : Nat) :
    ∀ kv ∈ (rageClickStep m sel now).clickCounts,
      now - kv.2.timestamp ≤ 5000 := by
  intro kv hkv
  cases hget : mapGet m sel with
  | none =>
    simp only [rageClickStep, hget] at hkv
    exact mem_evictStale hkv
  | some existing =>
    simp only [rageClickStep, hget] at hkv
    split_ifs at hkv <;> exact mem_evictStale hkv

/-- Claim C1: three clicks deriving the same selector within a 2000ms
window emit exactly one `rage_click` (with `clicksInTimeframe = 3`), the
counter is reset so a fourth click in the same window starts a fresh count
(the map holds `{count: 1}` with the original window timestamp) and emits
nothing, and after any listener firing no surviving map entry is staler
than 5000ms. -/
theorem rage_click_threshold (s : String) (t0 t1 t2 t3 : Nat)
    (h01 : t0 ≤ t1) (h12 : t1 ≤ t2) (h23 : t2 ≤ t3)
    (hw : t3 < t0 + 2000) :
    (rageClickRun [] [(t0, s), (t1, s), (t2, s), (t3, s)]).2 = [3] ∧
    mapGet (rageClickRun [] [(t0, s), (t1, s), (t2, s), (t3, s)]).1 s
      = some { count := 1, timestamp := t0 } ∧
    (∀ (m : ClickCounts) (sel : String) (now : Nat),
      ∀ kv ∈ (rageClickStep m sel now).clickCounts,
        now - kv.2.timestamp ≤ 5000) := by
  have hs0 : t0 - t0 ≤ 5000 := by omega
  have hs1 : t1 - t0 ≤ 5000 := by omega
  have hs2 : t2 - t0 ≤ 5000 := by omega
  have hs3 : t3 - t0 ≤ 5000 := by omega
  have hc1 : t1 - t0 < 2000 := by omega
  have hc2 : t2 - t0 < 2000 := by omega
  have hc3 : t3 - t0 < 2000 := by omega
  have e1 : rageClickStep [] s t0
      = { clickCounts := [(s, { count := 1, timestamp := t0 })],
          rageEmitted := none } := by
    simp [rageClickStep, mapGet, mapSet, evictStale, hs0]
  have e2 : rageClickStep [(s, { count := 1, timestamp := t0 })] s t1
      = { clickCounts := [(s, { count := 2, timestamp := t0 })],
          rageEmitted := none } := by
    simp [rageClickStep, mapGet, mapSet, evictStale, hs1, hc1]
    omega
  have e3 : rageClickStep [(s, { count := 2, timestamp := t0 })] s t2
      = { clickCounts := [(s, { count := 0, timestamp := t0 })],
          rageEmitted := some 3 } := by
    simp [rageClickStep, mapGet, mapSet, evictStale, hs2, hc2]
    omega
  have e4 : rageClickStep [(s, { count := 0, timestamp := t0 })] s t3
      = { clickCounts := [(s, { count := 1, timestamp := t0 })],
          rageEmitted := none } := by
    simp [rageClickStep, mapGet, mapSet, evictStale, hs3, hc3]
    omega
  refine ⟨?_, ?_, rageClickStep_evicts⟩ <;>
    simp [rageClickRun, e1, e2, e3, e4, mapGet]

/-- Witness for C1: four clicks on the same selector at 0, 100, 200 and
300 ms emit exactly one `rage_click` at the third click. -/
theorem rage_click_threshold_witness :
    (rageClickRun []
      [(0, "#buy-button"), (100, "#buy-button"), (200, "#buy-button"),
        (300, "#buy-button")]).2 = [3] ∧
    mapGet (rageClickRun []
      [(0, "#buy-button"), (100, "#buy-button"), (200, "#buy-button"),
        (300, "#buy-button")]).1 "#buy-button"
      = some { count := 1, timestamp := 0 } := by
  have h := rage_click_threshold "#buy-button" 0 100 200 300
    (by decide) (by decide) (by decide) (by decide)
  exact ⟨h.1, h.2.1⟩

/-- Payload of a `session_end` event as computed by `trackSessionEnd`. -/
structure SessionEndData where
  sessionDuration : Nat
  activeTime : Nat
  idleTime : Nat
  pagesViewed : Nat
  totalClicks : Nat
  totalScrolls : Nat
  exitPage : String
  exitType : String
  converted : Bool
  bounce : Bool
deriving DecidableEq

/-- An introspection-queue event, as far as the session lifecycle reads or
writes the queue: `custom` events carry the `eventName` that
`hasConversion` scans, `session_end` events carry their payload, every
other event only its `type` tag. -/
inductive QEvent where
  | custom (eventName : String)
  | sessionEnd (d : SessionEndData)
  | other (type : String)
deriving DecidableEq

/-- `hasConversion` (tracker lines 1068-1071): scans the introspection
queue for a custom event whose name contains the substring convert. -/
def hasConversion (q : List QEvent) : Bool :=
  q.any fun e =>
    match e with
    | .custom n => strIncludes n "convert"
    | _ => false

/-- The session-lifecycle slice of the tracker state: the construction-time
session start, the counters, the `sessionEnded` guard flag and the
introspection queue that `logEvent` appends to. -/
structure SessionState where
  sessionStartTime : Nat
  pageViews : Nat
  totalClicks : Nat
  totalScrolls : Nat
  sessionEnded : Bool
  eventQueue : List QEvent
deriving DecidableEq

/-- `calculateActiveTime` (tracker lines 1062-1066):
`Math.min(Date.now() - sessionStartTime, 30 * 60 * 1000)`. -/
def calculateActiveTime (st : SessionState) (now : Nat) : Nat :=
  min (now - st.sessionStartTime) (30 * 60 * 1000)

/-- `trackSessionEnd` (tracker lines 996-1020): returns immediately when
`sessionEnded` is already set, otherwise sets the flag and logs exactly one
`session_end` event with the computed payload. -/
def trackSessionEnd (st : SessionState) (now : Nat)
    (visibilityHidden : Bool) (exitPage : String) : SessionState :=
  if st.sessionEnded then st
  else
    { st with
      sessionEnded := true
      eventQueue := st.eventQueue ++
        [QEvent.sessionEnd
          { sessionDuration := now - st.sessionStartTime
            activeTime := calculateActiveTime st now
            idleTime := (now - st.sessionStartTime) - calculateActiveTime st now
            pagesViewed := st.pageViews
            totalClicks := st.totalClicks
            totalScrolls := st.totalScrolls
            exitPage := exitPage
            exitType := if visibilityHidden then "tab_close" else "navigation"
            converted := hasConversion st.eventQueue
            bounce := st.pageViews == 1 }] }

/-- One session-end trigger: a `beforeunload` firing, or the sustained-
hidden check that `setupSessionTracking` schedules 1000ms after a
`visibilitychange` to hidden (tracker lines 938-971).  Both paths call
`trackSessionEnd` with the browser context at that moment. -/
structure EndTrigger where
  now : Nat
  visibilityHidden : Bool
  exitPage : String
deriving DecidableEq

/-- Any interleaving of session-end triggers, applied in order. -/
def runEndTriggers (st : SessionState) : List EndTrigger → SessionState
  | [] => st
  | tr :: rest =>
    runEndTriggers (trackSessionEnd st tr.now tr.visibilityHidden tr.exitPage)
      rest

/-- Number of `session_end` events in a queue. -/
def countSessionEnd (q : List QEvent) : Nat :=
  q.countP fun e =>
    match e with
    | .sessionEnd _ => true
    | _ => false

theorem trackSessionEnd_of_ended {st : SessionState}
    (h : st.sessionEnded = true) (now : Nat) (vh : Bool) (p : String) :
    trackSessionEnd st now vh p = st := by
  simp [trackSessionEnd, h]

theorem runEndTriggers_of_ended {st : SessionState}
    (h : st.sessionEnded = true) :
    ∀ l : List EndTrigger, runEndTriggers st l = st := by
  intro l
  induction l with
  | nil => rfl
  | cons tr rest ih =>
    rw [runEndTriggers, trackSessionEnd_of_ended h]
    exact ih

/-- Claim C4: for every tracker state that has not yet ended its session
and whose queue holds no `session_end` yet, every sequence of session-end
triggers (`beforeunload` firings and sustained-hidden `visibilitychange`
checks, in any interleaving) leaves at most one `session_end` event in the
queue — exactly one as soon as at least one trigger fired. -/
theorem session_end_at_most_once (st : SessionState) (l : List EndTrigger)
    (hflag : st.sessionEnded = false)
    (hq : countSessionEnd st.eventQueue = 0) :
    countSessionEnd (runEndTriggers st l).eventQueue ≤ 1 ∧
    (l ≠ [] → countSessionEnd (runEndTriggers st l).eventQueue = 1) := by
  cases l with
  | nil =>
    constructor
    · rw [runEndTriggers, hq]; omega
    · intro h; exact absurd rfl h
  | cons tr rest =>
    have h1 : (trackSessionEnd st tr.now tr.visibilityHidden
        tr.exitPage).sessionEnded = true := by
      simp [trackSessionEnd, hflag]
    have h2 : countSessionEnd (trackSessionEnd st tr.now tr.visibilityHidden
        tr.exitPage).eventQueue = 1 := by
      simp [trackSessionEnd, hflag, countSessionEnd, List.countP_append] at hq ⊢
      simpa [countSessionEnd] using hq
    rw [runEndTriggers, runEndTriggers_of_ended h1]
    exact ⟨Nat.le_of_eq h2, fun _ => h2⟩

/-- Witness for C4: a `beforeunload` at 5000ms followed by a sustained-
hidden visibility check at 6000ms produces exactly one `session_end`. -/
theorem session_end_at_most_once_witness :
    countSessionEnd (runEndTriggers
      { sessionStartTime := 0, pageViews := 1, totalClicks := 4,
        totalScrolls := 2, sessionEnded := false,
        eventQueue := [QEvent.other "pageview"] }
      [{ now := 5000, visibilityHidden := false, exitPage := "/home" },
       { now := 6000, visibilityHidden := true, exitPage := "/home" }]
      ).eventQueue = 1 := by
  exact (session_end_at_most_once
    { sessionStartTime := 0, pageViews := 1, totalClicks := 4,
      totalScrolls := 2, sessionEnded := false,
      eventQueue := [QEvent.other "pageview"] }
    [{ now := 5000, visibilityHidden := false, exitPage := "/home" },
     { now := 6000, visibilityHidden := true, exitPage := "/home" }]
    rfl (by decide)).2 (by decide)

/-- `config.idleTimeoutMs || 30000`: the idle timeout with its default
(`0` is falsy in JavaScript, so it also falls back to 30000). -/
def idleTimeoutOf (cfg : Option Nat) : Nat :=
  match cfg with
  | some n => if n = 0 then 30000 else n
  | none => 30000

/-- The idle-detection slice of the tracker state (storage.ts lines
229-233): the `isIdle` flag, the time of the last activity check and the
pending one-shot timer, modelled by its scheduled fire time — `none` when
no fire is pending (a fired or cancelled `setTimeout` never fires
again). -/
structure IdleState where
  isIdle : Bool
  lastIdleCheck : Nat
  idleTimer : Option Nat
deriving DecidableEq

/-- The events `setupIdleDetection` emits. -/
inductive IdleEmit where
  | idleStart
  | idleEnd (idleDuration : Nat)
deriving DecidableEq

/-- `resetIdleTimer` (storage.ts lines 2164-2191), invoked on every event
of the fixed activity set (mousedown, mousemove, keypress, scroll,
touchstart, click) and once at setup: if currently idle, emit `idle_end`
with `Date.now() - this.lastIdleCheck` and clear `isIdle`; then record the
activity time, cancel any pending timer and schedule the idle check for
`idleTimeout` milliseconds from now. -/
def resetIdleTimer (st : IdleState) (now idleTimeout : Nat) :
    IdleState × List IdleEmit :=
  if st.isIdle then
    ({ isIdle := false, lastIdleCheck := now,
       idleTimer := some (now + idleTimeout) },
     [IdleEmit.idleEnd (now - st.lastIdleCheck)])
  else
    ({ isIdle := false, lastIdleCheck := now,
       idleTimer := some (now + idleTimeout) }, [])

/-- The body of the timeout scheduled by `resetIdleTimer`: when it fires
(at its scheduled time, if no activity cancelled it first) it emits
`idle_start` unless the tracker is already idle, and the one-shot timer is
spent. -/
def idleTimerFire (st : IdleState) : IdleState × List IdleEmit :=
  if st.isIdle then ({ st with idleTimer := none }, [])
  else ({ st with isIdle := true, idleTimer := none }, [IdleEmit.idleStart])

/-- Claim C9: with idle capture enabled, an activity at `t0` schedules the
idle check `timeout` ms ahead; if no activity intervenes the check fires
and emits exactly one `idle_start` (the spent timer cannot fire again, and
even a second firing would emit nothing), and the next activity at `t1`
emits `idle_end` carrying the elapsed idle duration `t1 - t0` (time since
the last activity); the default timeout is 30000 ms (30 s). -/
theorem idle_cycle (st : IdleState) (t0 timeout t1 : Nat)
    (hidle : st.isIdle = false) (ht : t0 + timeout ≤ t1) :
    (resetIdleTimer st t0 timeout).2 = [] ∧
    (resetIdleTimer st t0 timeout).1.idleTimer = some (t0 + timeout) ∧
    (idleTimerFire (resetIdleTimer st t0 timeout).1).2
      = [IdleEmit.idleStart] ∧
    (idleTimerFire (resetIdleTimer st t0 timeout).1).1.idleTimer = none ∧
    (idleTimerFire (idleTimerFire (resetIdleTimer st t0 timeout).1).1).2
      = [] ∧
    (resetIdleTimer (idleTimerFire (resetIdleTimer st t0 timeout).1).1 t1
        timeout).2
      = [IdleEmit.idleEnd (t1 - t0)] ∧
    idleTimeoutOf none = 30000 := by
  simp [resetIdleTimer, idleTimerFire, idleTimeoutOf, hidle]

/-- Witness for C9: activity at 100ms with the default 30000ms timeout,
idle check firing at 30100ms, next activity at 40000ms emitting `idle_end`
with a 39900ms idle duration. -/
theorem idle_cycle_witness :
    (idleTimerFire (resetIdleTimer
        { isIdle := false, lastIdleCheck := 0, idleTimer := none }
        100 (idleTimeoutOf none)).1).2 = [IdleEmit.idleStart] ∧
    (resetIdleTimer (idleTimerFire (resetIdleTimer
        { isIdle := false, lastIdleCheck := 0, idleTimer := none }
        100 (idleTimeoutOf none)).1).1 40000 (idleTimeoutOf none)).2
      = [IdleEmit.idleEnd (40000 - 100)] := by
  have h := idle_cycle
    { isIdle := false, lastIdleCheck := 0, idleTimer := none }
    100 (idleTimeoutOf none) 40000 rfl (by decide)
  exact ⟨h.2.2.1, h.2.2.2.2.2.1⟩

/-- The tracker state that `destroy()` touches in the storage.ts variant:
the introspection queue, the delivery pipeline, the auto-flush interval
handle and the initialized flag. -/
structure CoreTrackerState where
  eventQueue : List IndeksEvent
  analytics : AnalyticsState
  autoFlushInterval : Bool
  isInitialized : Bool
deriving DecidableEq

/-- `IndeksAnalytics.clearBatch()` (`analytics.ts` lines 122-128): drops
the buffered events and cancels the pending flush timer. -/
def clearBatch (st : AnalyticsState) : AnalyticsState :=
  { batchQueue := [] }

/-- `destroy()` of the storage.ts tracker variant: starts
`analytics.flush().catch(console.error)` — fire-and-forget, so the flush
runs synchronously up to its `await send`, swapping the whole pending
buffer out as the in-flight batch, and a later rejection is logged and
swallowed by the `.catch` — then clears the auto-flush interval, empties
the introspection queue via `clearEvents()`, drops the pipeline buffer via
`clearBatch()` and marks the tracker uninitialized.  Returns the state at
`destroy`'s return together with the in-flight batch handed to `send`
(empty when the buffer was empty and `flush` returned early with no
send). -/
def destroyTracker (st : CoreTrackerState) :
    CoreTrackerState × List IndeksEvent :=
  let inflight := st.analytics.batchQueue
  let st1 := { st with analytics := { batchQueue := [] } }
  let st2 := { st1 with autoFlushInterval := false }
  let st3 := { st2 with eventQueue := [] }
  let st4 := { st3 with analytics := clearBatch st3.analytics }
  ({ st4 with isInitialized := false }, inflight)

/-- Resolution of the fire-and-forget send started by `destroy()`: on
rejection, `flush`'s catch re-queues the in-flight batch and re-throws,
and the `.catch(console.error)` attached in `destroy` logs and swallows
the error — `destroy` itself never fails (the model is a total function
with no error outcome). -/
def destroySettle (st : CoreTrackerState) (inflight : List IndeksEvent)
    (sendFails : Bool) : CoreTrackerState :=
  if sendFails && !inflight.isEmpty then
    { st with analytics :=
        { batchQueue := inflight ++ st.analytics.batchQueue } }
  else st

/-- Claim C8: `destroy()` hands the whole pending delivery buffer to a
best-effort flush (whose failure is swallowed, never escaping `destroy`),
cancels the auto-flush timer, empties the introspection queue and marks
the tracker uninitialized. -/
theorem destroy_flushes_and_resets (st : CoreTrackerState)
    (sendFails : Bool) :
    (destroyTracker st).1.eventQueue = [] ∧
    (destroyTracker st).1.analytics.batchQueue = [] ∧
    (destroyTracker st).1.autoFlushInterval = false ∧
    (destroyTracker st).1.isInitialized = false ∧
    (destroyTracker st).2 = st.analytics.batchQueue ∧
    (destroySettle (destroyTracker st).1 (destroyTracker st).2
        sendFails).isInitialized = false := by
  refine ⟨rfl, rfl, rfl, rfl, rfl, ?_⟩
  unfold destroySettle
  split <;> rfl
